import Mathlib

/-!
Verification of the Beryl identifier library (a shallow embedding of
src/crystal.rs and src/generator.rs).

Machine integers are modelled as `Nat` with explicit reduction modulo the
type width wherever a conversion or overflow can occur: a `u16`-typed
parameter is read modulo `2^16`, a `u64` shift result is reduced modulo
`2^64`.  The `i64` view is modelled as a two's-complement reinterpretation
into `Int`.

The generator's clock (`now(epoch)` in src/generator.rs, the abstract
milliseconds-since-epoch capability) is passed explicitly: each operation
takes one argument per `now()` call the Rust body performs, in source
order.  Mutation of the generator is modelled by returning the updated
record alongside the produced value.
-/

namespace Beryl

/-- Propositional equality of `Except` values is decidable component-wise;
needed so concrete runs of the fallible operations can be settled by
`decide`. -/
instance instDecEqExcept {ε α : Type} [DecidableEq ε] [DecidableEq α] :
    DecidableEq (Except ε α) := fun a b =>
  match a, b with
  | Except.ok x, Except.ok y =>
      if h : x = y then isTrue (congrArg Except.ok h)
      else isFalse (fun hc => h (Except.ok.inj hc))
  | Except.error x, Except.error y =>
      if h : x = y then isTrue (congrArg Except.error h)
      else isFalse (fun hc => h (Except.error.inj hc))
  | Except.ok _, Except.error _ => isFalse (fun hc => Except.noConfusion hc)
  | Except.error _, Except.ok _ => isFalse (fun hc => Except.noConfusion hc)

/-- Enumeration of Crystal parts, from `CrystalPart` in src/crystal.rs. -/
inductive CrystalPart where
  | GeneratorId
  | Counter
  | Timestamp
  deriving DecidableEq, Repr

/-- The crate error enumeration.  The crate root that declares `BerylError`
for the current module layout is not among the provided sources (the
provided lib.rs is an earlier monolithic revision); the variants are
reconstructed from their uses in the sources: src/crystal.rs constructs
`BerylError::PartOutOfBounds(CrystalPart)` and src/generator.rs constructs
`BerylError::GeneratorIdOutOfBounds` and `BerylError::GeneratorExhausted`. -/
inductive BerylError where
  | PartOutOfBounds (part : CrystalPart)
  | GeneratorIdOutOfBounds
  | GeneratorExhausted
  deriving DecidableEq, Repr

/-- Wrapper over a 64-bit value, from `struct Crystal(u64)` in src/crystal.rs.
`val` holds the mathematical value of the `u64`. -/
structure Crystal where
  val : Nat
  deriving DecidableEq, Repr

/-- `Crystal::from_parts_unchecked` (src/crystal.rs):
`((generator as u64) << 50) | ((counter as u64) << 42) | timestamp`.
The `u16` arguments are read modulo `2^16`, the shifts are `u64` shifts
(reduced modulo `2^64`), and `timestamp` is a `u64` argument. -/
def Crystal.from_parts_unchecked (generator counter timestamp : Nat) : Crystal :=
  ⟨(((generator % 2^16) <<< 50) % 2^64) |||
    (((((counter % 2^16) <<< 42) % 2^64)) ||| (timestamp % 2^64))⟩

/-- `Crystal::from_parts` (src/crystal.rs): bounds-checks each part
(`generator <= 0x3FFF`, `counter <= 0xFF`, `timestamp <= 0x3FFFFFFFFFF`,
tested in source order) and delegates to the unchecked constructor. -/
def Crystal.from_parts (generator counter timestamp : Nat) : Except BerylError Crystal :=
  if generator % 2^16 ≤ 0x3FFF then
    if counter % 2^16 ≤ 0xFF then
      if timestamp % 2^64 ≤ 0x3FFFFFFFFFF then
        Except.ok (Crystal.from_parts_unchecked generator counter timestamp)
      else Except.error (BerylError.PartOutOfBounds CrystalPart.Timestamp)
    else Except.error (BerylError.PartOutOfBounds CrystalPart.Counter)
  else Except.error (BerylError.PartOutOfBounds CrystalPart.GeneratorId)

/-- The `u64 -> u16` conversion `.try_into()` used by the field accessors:
succeeds exactly when the value fits in 16 bits. -/
def Crystal.u16_of_u64 (v : Nat) : Option Nat :=
  if v ≤ 0xFFFF then some v else none

/-- `Crystal::generator` (src/crystal.rs): `(self.0 >> 50).try_into().unwrap()`.
The `Option` records whether the internal narrowing conversion succeeds
(`unwrap` panics on `none`). -/
def Crystal.generator (c : Crystal) : Option Nat :=
  Crystal.u16_of_u64 (c.val >>> 50)

/-- `Crystal::counter` (src/crystal.rs):
`((self.0 & 0x3FC0000000000) >> 42).try_into().unwrap()`. -/
def Crystal.counter (c : Crystal) : Option Nat :=
  Crystal.u16_of_u64 ((c.val &&& 0x3FC0000000000) >>> 42)

/-- `Crystal::timestamp` (src/crystal.rs): `self.0 & 0x3FFFFFFFFFF`. -/
def Crystal.timestamp (c : Crystal) : Nat :=
  c.val &&& 0x3FFFFFFFFFF

/-- `From<u64> for Crystal` (src/crystal.rs): wraps the raw bits. -/
def Crystal.ofU64 (bits : Nat) : Crystal :=
  ⟨bits % 2^64⟩

/-- `From<Crystal> for u64` (src/crystal.rs): returns the raw bits. -/
def Crystal.toU64 (c : Crystal) : Nat :=
  c.val

/-- `From<i64> for Crystal` (src/crystal.rs): `std::mem::transmute`, i.e. the
two's-complement reinterpretation of the signed value as an unsigned one. -/
def Crystal.ofI64 (raw : Int) : Crystal :=
  ⟨(raw % (2:Int)^64).toNat⟩

/-- `From<Crystal> for i64` (src/crystal.rs): `std::mem::transmute`, i.e. the
two's-complement reinterpretation of the unsigned bits as a signed value. -/
def Crystal.toI64 (c : Crystal) : Int :=
  if c.val < 2^63 then (c.val : Int) else (c.val : Int) - 2^64

/-- The generator state, from `struct Generator` in src/generator.rs.
`epoch` is an opaque tag for the `SystemTime` epoch; timestamps passed to
the operations are already measured relative to it. -/
structure Generator where
  id : Nat
  epoch : Nat
  count : Nat
  last_timestamp : Nat
  deriving DecidableEq, Repr

/-- `Generator::new` (src/generator.rs): validates `id <= 0x3FFF`, failing
with `BerylError::GeneratorIdOutOfBounds`; initializes `count` to
`u16::MAX` and `last_timestamp` to the construction-time clock sample
`now0 = now(epoch)`. -/
def Generator.new (id epoch now0 : Nat) : Except BerylError Generator :=
  if id % 2^16 ≤ 0x3FFF then
    Except.ok { id := id % 2^16, epoch := epoch, count := 0xFFFF, last_timestamp := now0 }
  else Except.error BerylError.GeneratorIdOutOfBounds

/-- `Generator::generate_unchecked` (src/generator.rs).  `now1` and `now2`
are the two `now(self.epoch)` samples the body takes, in order: if
`last_timestamp == now1` then `count = count.wrapping_add(1) & 0x3FF`,
else `count = 0`; the Crystal is encoded from `(id, count, now2)` via the
unchecked codec path.  Note the source never assigns `last_timestamp`
here; the returned state reflects that. -/
def Generator.generate_unchecked (g : Generator) (now1 now2 : Nat) : Crystal × Generator :=
  let count := if g.last_timestamp = now1 then ((g.count + 1) % 2^16) &&& 0x3FF else 0
  (Crystal.from_parts_unchecked g.id count now2, { g with count := count })

/-- `Generator::try_generate` (src/generator.rs): fails with
`BerylError::GeneratorExhausted` iff `count == 0x3FF` and
`last_timestamp == now0` (the guard's clock sample); otherwise delegates
to `generate_unchecked` with its two samples `now1`, `now2`. -/
def Generator.try_generate (g : Generator) (now0 now1 now2 : Nat) :
    Except BerylError Crystal × Generator :=
  if g.count = 0x3FF ∧ g.last_timestamp = now0 then
    (Except.error BerylError.GeneratorExhausted, g)
  else
    (Except.ok (Generator.generate_unchecked g now1 now2).1,
     (Generator.generate_unchecked g now1 now2).2)

/-! ## Bit-manipulation groundwork -/

/-- Masking with a shifted mask extracts the corresponding high field:
`x &&& (m <<< k) = ((x >>> k) &&& m) <<< k`. -/
lemma and_shiftLeft_mask (x m k : Nat) :
    x &&& (m <<< k) = ((x >>> k) &&& m) <<< k := by
  apply Nat.eq_of_testBit_eq
  intro i
  simp only [Nat.testBit_and, Nat.testBit_shiftLeft, Nat.testBit_shiftRight]
  by_cases h : k ≤ i
  · have hik : k + (i - k) = i := by omega
    simp [ge_iff_le, h, hik]
  · simp [ge_iff_le, h]

/-- Bitwise-or with a field shifted past the width of the other summand is
addition. -/
lemma mul_pow_or_eq_add {k : Nat} (a b : Nat) (hb : b < 2^k) :
    (a * 2^k) ||| b = a * 2^k + b := by
  rw [Nat.mul_comm a (2^k)]
  exact (Nat.mul_add_lt_is_or hb a).symm

/-- For in-range fields the packed word of `from_parts_unchecked` is the
positional sum `g * 2^50 + c * 2^42 + t`. -/
lemma fpuc_val (g c t : Nat) (hg : g < 2^14) (hc : c < 2^8) (ht : t < 2^42) :
    (Crystal.from_parts_unchecked g c t).val = g * 2^50 + c * 2^42 + t := by
  have hg16 : g % 2^16 = g := Nat.mod_eq_of_lt (by omega)
  have hc16 : c % 2^16 = c := Nat.mod_eq_of_lt (by omega)
  have ht64 : t % 2^64 = t := Nat.mod_eq_of_lt (by omega)
  have hgs : g * 2^50 < 2^64 := by
    have := Nat.mul_le_mul_right (2^50) (show g ≤ 2^14 - 1 by omega)
    omega
  have hcs : c * 2^42 < 2^50 := by
    have := Nat.mul_le_mul_right (2^42) (show c ≤ 2^8 - 1 by omega)
    omega
  have hrest : c * 2^42 + t < 2^50 := by omega
  unfold Crystal.from_parts_unchecked
  simp only [Nat.shiftLeft_eq, hg16, hc16, ht64]
  rw [Nat.mod_eq_of_lt hgs, Nat.mod_eq_of_lt (by omega : c * 2^42 < 2^64)]
  rw [mul_pow_or_eq_add c t ht]
  rw [mul_pow_or_eq_add g (c * 2^42 + t) hrest]
  omega

/-- Field extraction inverts packing: the generator-id field. -/
lemma fpuc_generator (g c t : Nat) (hg : g < 2^14) (hc : c < 2^8) (ht : t < 2^42) :
    (Crystal.from_parts_unchecked g c t).generator = some g := by
  have hv := fpuc_val g c t hg hc ht
  unfold Crystal.generator Crystal.u16_of_u64
  rw [Nat.shiftRight_eq_div_pow, hv]
  have hdiv : (g * 2^50 + c * 2^42 + t) / 2^50 = g := by
    rw [Nat.add_assoc, Nat.mul_comm g (2^50), Nat.mul_add_div (by norm_num)]
    rw [Nat.div_eq_of_lt (by omega : c * 2^42 + t < 2^50)]
    omega
  rw [hdiv, if_pos (by omega)]

/-- Field extraction inverts packing: the counter field. -/
lemma fpuc_counter (g c t : Nat) (hg : g < 2^14) (hc : c < 2^8) (ht : t < 2^42) :
    (Crystal.from_parts_unchecked g c t).counter = some c := by
  have hv := fpuc_val g c t hg hc ht
  unfold Crystal.counter Crystal.u16_of_u64
  rw [show (0x3FC0000000000 : Nat) = 0xFF <<< 42 by norm_num [Nat.shiftLeft_eq]]
  rw [and_shiftLeft_mask, Nat.shiftLeft_eq, Nat.shiftRight_eq_div_pow,
    Nat.mul_div_cancel _ (by norm_num : (0:Nat) < 2^42)]
  rw [show (0xFF : Nat) = 2^8 - 1 by norm_num, Nat.and_pow_two_sub_one_eq_mod]
  rw [Nat.shiftRight_eq_div_pow, hv]
  have hval : g * 2^50 + c * 2^42 + t = 2^42 * (g * 2^8 + c) + t := by ring
  rw [hval, Nat.mul_add_div (by norm_num), Nat.div_eq_of_lt (by omega : t < 2^42)]
  have hmod : (g * 2^8 + c + 0) % 2^8 = c := by omega
  rw [hmod, if_pos (by omega)]

/-- Field extraction inverts packing: the timestamp field. -/
lemma fpuc_timestamp (g c t : Nat) (hg : g < 2^14) (hc : c < 2^8) (ht : t < 2^42) :
    (Crystal.from_parts_unchecked g c t).timestamp = t := by
  have hv := fpuc_val g c t hg hc ht
  unfold Crystal.timestamp
  rw [show (0x3FFFFFFFFFF : Nat) = 2^42 - 1 by norm_num, Nat.and_pow_two_sub_one_eq_mod]
  rw [hv]
  have hval : g * 2^50 + c * 2^42 + t = 2^42 * (g * 2^8 + c) + t := by ring
  rw [hval, Nat.mul_add_mod, Nat.mod_eq_of_lt (by omega : t < 2^42)]

/-- On an arbitrary word the counter accessor always succeeds and returns
bits 49–42. -/
lemma counter_eq (x : Nat) : Crystal.counter ⟨x⟩ = some ((x >>> 42) % 2^8) := by
  unfold Crystal.counter Crystal.u16_of_u64
  rw [show (0x3FC0000000000 : Nat) = 0xFF <<< 42 by norm_num [Nat.shiftLeft_eq]]
  rw [and_shiftLeft_mask, Nat.shiftLeft_eq, Nat.shiftRight_eq_div_pow,
    Nat.mul_div_cancel _ (by norm_num : (0:Nat) < 2^42)]
  rw [show (0xFF : Nat) = 2^8 - 1 by norm_num, Nat.and_pow_two_sub_one_eq_mod]
  have hlt : x / 2^42 % 2^8 < 2^8 := Nat.mod_lt _ (by norm_num)
  rw [Nat.shiftRight_eq_div_pow, if_pos (by omega)]

/-- For in-range fields the checked constructor succeeds and agrees with the
unchecked one. -/
lemma from_parts_ok (g c t : Nat) (hg : g < 2^14) (hc : c < 2^8) (ht : t < 2^42) :
    Crystal.from_parts g c t = Except.ok (Crystal.from_parts_unchecked g c t) := by
  unfold Crystal.from_parts
  rw [if_pos (by omega), if_pos (by omega), if_pos (by omega)]

/-- A freshly constructed generator (`count = u16::MAX`) emits counter 0 on
its first generation call, on both branches of the timestamp comparison. -/
lemma first_generate_counter (idv epochv nowc t1 t2 : Nat)
    (hidv : idv < 2^14) (ht2 : t2 < 2^42) :
    ((Generator.generate_unchecked ⟨idv, epochv, 0xFFFF, nowc⟩ t1 t2).1).counter = some 0 := by
  simp only [Generator.generate_unchecked]
  split_ifs with hsame
  · have hcnt : ((0xFFFF + 1) % 2^16) &&& 0x3FF = 0 := by decide
    simpa [hcnt] using fpuc_counter idv 0 t2 hidv (by norm_num) ht2
  · exact fpuc_counter idv 0 t2 hidv (by norm_num) ht2

/-! ## The claims -/

/-- Claim C1.  The spec asserts that no two calls to any generation
operation of a single Generator may ever return Crystals with identical
(producer id, sequence, timestamp) triples, absent clock regression.  The
code violates this: `generate_unchecked` never assigns `last_timestamp`,
so once the clock has advanced past the construction millisecond, every
call takes the reset branch and emits counter 0 again.  Here the
generator is constructed at millisecond 5 (so `Generator.new 1 0 5`
yields the state used below) and two successive `generate_unchecked`
calls are made with every clock sample equal to 6 — a non-decreasing
clock — and the two calls return the identical Crystal, which decodes to
the triple (1, 0, 6) both times. -/
theorem c1_duplicate_generated_crystals :
    Generator.new 1 0 5 = Except.ok ⟨1, 0, 0xFFFF, 5⟩ ∧
    (Generator.generate_unchecked ⟨1, 0, 0xFFFF, 5⟩ 6 6).1 =
      (Generator.generate_unchecked
        ((Generator.generate_unchecked ⟨1, 0, 0xFFFF, 5⟩ 6 6).2) 6 6).1 ∧
    ((Generator.generate_unchecked ⟨1, 0, 0xFFFF, 5⟩ 6 6).1).generator = some 1 ∧
    ((Generator.generate_unchecked ⟨1, 0, 0xFFFF, 5⟩ 6 6).1).counter = some 0 ∧
    ((Generator.generate_unchecked ⟨1, 0, 0xFFFF, 5⟩ 6 6).1).timestamp = 6 := by
  decide

/-- Claim C2.  The spec asserts that `generate_unchecked` (a) wraps the
sequence modulo the 8-bit sequence space of the data model, and (b) on a
new millisecond resets the sequence and updates `last_timestamp` to the
sampled value.  The code does neither: the equal-timestamp branch wraps
with `& 0x3FF` (a 10-bit space), so internal counter 255 advances to 256
instead of wrapping to 0; and no branch ever assigns `last_timestamp`,
so after a new-millisecond call (samples 6 against stored 5) the stored
`last_timestamp` is still 5. -/
theorem c2_unchecked_divergence :
    (Generator.generate_unchecked ⟨1, 0, 0xFF, 5⟩ 5 5).2.count = 0x100 ∧
    (Generator.generate_unchecked ⟨1, 0, 0xFFFF, 5⟩ 6 6).2.count = 0 ∧
    (Generator.generate_unchecked ⟨1, 0, 0xFFFF, 5⟩ 6 6).2.last_timestamp = 5 := by
  decide

/-- Claim C3.  The spec asserts that `try_generate` fails with the
exhaustion error exactly when the sequence sits at the maximum of the
declared (8-bit) sequence space and the millisecond has not advanced.
The code's guard instead tests `count == 0x3FF`: at internal counter 255
(the declared maximum) within the same millisecond it happily returns
`Ok`, encoding internal counter 256 — whose two's-power bit collides
with producer-id bit 0, so the emitted Crystal decodes to counter 0 with
the generator id unchanged, a duplicate of the counter-0 identifier.
The error fires only at internal counter 0x3FF. -/
theorem c3_exhaustion_guard_divergence :
    (Generator.try_generate ⟨1, 0, 0xFF, 5⟩ 5 5 5).1 =
      Except.ok (Crystal.from_parts_unchecked 1 0x100 5) ∧
    (Crystal.from_parts_unchecked 1 0x100 5).generator = some 1 ∧
    (Crystal.from_parts_unchecked 1 0x100 5).counter = some 0 ∧
    (Crystal.from_parts_unchecked 1 0x100 5).timestamp = 5 ∧
    (Generator.try_generate ⟨1, 0, 0x3FF, 5⟩ 5 5 5).1 =
      Except.error BerylError.GeneratorExhausted := by
  decide

/-- Claim C4: for every (producer id, sequence, timestamp) triple with
producer id < 2^14, sequence < 2^8 and timestamp < 2^42, the checked
encoder `from_parts` succeeds, and extracting the three fields from the
encoded identifier reproduces the original triple exactly. -/
theorem c4_checked_encode_roundtrip (g c t : Nat)
    (hg : g < 2^14) (hc : c < 2^8) (ht : t < 2^42) :
    ∃ cr, Crystal.from_parts g c t = Except.ok cr ∧
      cr.generator = some g ∧ cr.counter = some c ∧ cr.timestamp = t :=
  ⟨Crystal.from_parts_unchecked g c t, from_parts_ok g c t hg hc ht,
   fpuc_generator g c t hg hc ht, fpuc_counter g c t hg hc ht,
   fpuc_timestamp g c t hg hc ht⟩

/-- Witness for C4 at the concrete triple (42, 42, 42). -/
theorem c4_checked_encode_roundtrip_witness :
    ∃ cr, Crystal.from_parts 42 42 42 = Except.ok cr ∧
      cr.generator = some 42 ∧ cr.counter = some 42 ∧ cr.timestamp = 42 :=
  c4_checked_encode_roundtrip 42 42 42 (by norm_num) (by norm_num) (by norm_num)

/-- Claim C5: the checked encoder rejects producer id 2^14 = 0x4000,
sequence 2^8 = 0x100 and timestamp 2^42 = 0x40000000000, each with the
out-of-bounds error naming that field; at each field's maximum valid
value (0x3FFF, 0xFF, 0x3FFFFFFFFFF) it succeeds and decodes back
exactly; and the all-maximum triple encodes to the all-ones 64-bit
pattern. -/
theorem c5_bounds_errors_and_extremes :
    Crystal.from_parts 0x4000 0 0 =
      Except.error (BerylError.PartOutOfBounds CrystalPart.GeneratorId) ∧
    Crystal.from_parts 0 0x100 0 =
      Except.error (BerylError.PartOutOfBounds CrystalPart.Counter) ∧
    Crystal.from_parts 0 0 0x40000000000 =
      Except.error (BerylError.PartOutOfBounds CrystalPart.Timestamp) ∧
    (Crystal.from_parts 0x3FFF 0 0 =
      Except.ok (Crystal.from_parts_unchecked 0x3FFF 0 0) ∧
     (Crystal.from_parts_unchecked 0x3FFF 0 0).generator = some 0x3FFF ∧
     (Crystal.from_parts_unchecked 0x3FFF 0 0).counter = some 0 ∧
     (Crystal.from_parts_unchecked 0x3FFF 0 0).timestamp = 0) ∧
    (Crystal.from_parts 0 0xFF 0 =
      Except.ok (Crystal.from_parts_unchecked 0 0xFF 0) ∧
     (Crystal.from_parts_unchecked 0 0xFF 0).generator = some 0 ∧
     (Crystal.from_parts_unchecked 0 0xFF 0).counter = some 0xFF ∧
     (Crystal.from_parts_unchecked 0 0xFF 0).timestamp = 0) ∧
    (Crystal.from_parts 0 0 0x3FFFFFFFFFF =
      Except.ok (Crystal.from_parts_unchecked 0 0 0x3FFFFFFFFFF) ∧
     (Crystal.from_parts_unchecked 0 0 0x3FFFFFFFFFF).generator = some 0 ∧
     (Crystal.from_parts_unchecked 0 0 0x3FFFFFFFFFF).counter = some 0 ∧
     (Crystal.from_parts_unchecked 0 0 0x3FFFFFFFFFF).timestamp = 0x3FFFFFFFFFF) ∧
    (Crystal.from_parts 0x3FFF 0xFF 0x3FFFFFFFFFF =
      Except.ok ⟨0xFFFFFFFFFFFFFFFF⟩ ∧
     (⟨0xFFFFFFFFFFFFFFFF⟩ : Crystal).generator = some 0x3FFF ∧
     (⟨0xFFFFFFFFFFFFFFFF⟩ : Crystal).counter = some 0xFF ∧
     (⟨0xFFFFFFFFFFFFFFFF⟩ : Crystal).timestamp = 0x3FFFFFFFFFF) := by
  decide

/-- Claim C6: encoding all-zero fields yields signed value 0; encoding
all-maximum fields yields signed value −1; and for every 64-bit
identifier, converting to the signed form and back reproduces the
identical unsigned bit pattern (the conversion being a total
two's-complement bit reinterpretation). -/
theorem c6_signed_roundtrip (n : Nat) (h : n < 2^64) :
    Crystal.toI64 (Crystal.from_parts_unchecked 0 0 0) = 0 ∧
    Crystal.toI64 (Crystal.from_parts_unchecked 0x3FFF 0xFF 0x3FFFFFFFFFF) = -1 ∧
    Crystal.ofI64 (Crystal.toI64 (Crystal.ofU64 n)) = Crystal.ofU64 n ∧
    Crystal.toU64 (Crystal.ofI64 (Crystal.toI64 (Crystal.ofU64 n))) = n := by
  have hofu : Crystal.ofU64 n = ⟨n⟩ := by
    unfold Crystal.ofU64
    rw [Nat.mod_eq_of_lt h]
  have key : Crystal.ofI64 (Crystal.toI64 (Crystal.ofU64 n)) = ⟨n⟩ := by
    rw [hofu]
    unfold Crystal.toI64 Crystal.ofI64
    dsimp only
    congr 1
    split_ifs with hlt <;> omega
  refine ⟨by decide, by decide, ?_, ?_⟩
  · rw [key, hofu]
  · rw [key]
    rfl

/-- Witness for C6 at the concrete bit pattern 0xDEADBEEF. -/
theorem c6_signed_roundtrip_witness :
    Crystal.toI64 (Crystal.from_parts_unchecked 0 0 0) = 0 ∧
    Crystal.toI64 (Crystal.from_parts_unchecked 0x3FFF 0xFF 0x3FFFFFFFFFF) = -1 ∧
    Crystal.ofI64 (Crystal.toI64 (Crystal.ofU64 0xDEADBEEF)) = Crystal.ofU64 0xDEADBEEF ∧
    Crystal.toU64 (Crystal.ofI64 (Crystal.toI64 (Crystal.ofU64 0xDEADBEEF))) = 0xDEADBEEF :=
  c6_signed_roundtrip 0xDEADBEEF (by norm_num)

/-- Claim C7: for in-range inputs the unchecked encoder packs the three
fields to exactly tile the 64-bit word: the packed value equals
`(producer_id <<< 50) ||| (sequence <<< 42) ||| timestamp`, equivalently
the positional sum, each field is recovered from its own bit range
(bits 63–50, 49–42, 41–0), and the word stays below 2^64. -/
theorem c7_field_tiling (g c t : Nat)
    (hg : g < 2^14) (hc : c < 2^8) (ht : t < 2^42) :
    (Crystal.from_parts_unchecked g c t).val = (g <<< 50) ||| ((c <<< 42) ||| t) ∧
    (Crystal.from_parts_unchecked g c t).val = g * 2^50 + c * 2^42 + t ∧
    (Crystal.from_parts_unchecked g c t).val / 2^50 = g ∧
    (Crystal.from_parts_unchecked g c t).val / 2^42 % 2^8 = c ∧
    (Crystal.from_parts_unchecked g c t).val % 2^42 = t ∧
    (Crystal.from_parts_unchecked g c t).val < 2^64 := by
  have hv := fpuc_val g c t hg hc ht
  refine ⟨?_, hv, ?_, ?_, ?_, ?_⟩
  · rw [hv, Nat.shiftLeft_eq, Nat.shiftLeft_eq, mul_pow_or_eq_add c t ht,
      mul_pow_or_eq_add g (c * 2^42 + t) (by omega)]
    omega
  · rw [hv, show g * 2^50 + c * 2^42 + t = 2^50 * g + (c * 2^42 + t) by ring,
      Nat.mul_add_div (by norm_num), Nat.div_eq_of_lt (by omega : c * 2^42 + t < 2^50)]
    omega
  · rw [hv, show g * 2^50 + c * 2^42 + t = 2^42 * (g * 2^8 + c) + t by ring,
      Nat.mul_add_div (by norm_num), Nat.div_eq_of_lt (by omega : t < 2^42)]
    omega
  · rw [hv, show g * 2^50 + c * 2^42 + t = 2^42 * (g * 2^8 + c) + t by ring,
      Nat.mul_add_mod, Nat.mod_eq_of_lt (by omega : t < 2^42)]
  · rw [hv]
    have := Nat.mul_le_mul_right (2^50) (show g ≤ 2^14 - 1 by omega)
    omega

/-- Witness for C7 at the concrete triple (3, 5, 7). -/
theorem c7_field_tiling_witness :
    (Crystal.from_parts_unchecked 3 5 7).val = (3 <<< 50) ||| ((5 <<< 42) ||| 7) ∧
    (Crystal.from_parts_unchecked 3 5 7).val = 3 * 2^50 + 5 * 2^42 + 7 ∧
    (Crystal.from_parts_unchecked 3 5 7).val / 2^50 = 3 ∧
    (Crystal.from_parts_unchecked 3 5 7).val / 2^42 % 2^8 = 5 ∧
    (Crystal.from_parts_unchecked 3 5 7).val % 2^42 = 7 ∧
    (Crystal.from_parts_unchecked 3 5 7).val < 2^64 :=
  c7_field_tiling 3 5 7 (by norm_num) (by norm_num) (by norm_num)

/-- Claim C8, counterexample to the claim as stated: `Generator::new`
rejects producer id 2^14 with the dedicated `GeneratorIdOutOfBounds`
variant, which is not the same error kind as the codec's
`PartOutOfBounds(GeneratorId)` produced by the checked encoder on the
same input. -/
theorem c8_error_kind_counterexample :
    Generator.new 0x4000 0 0 = Except.error BerylError.GeneratorIdOutOfBounds ∧
    Crystal.from_parts 0x4000 0 0 =
      Except.error (BerylError.PartOutOfBounds CrystalPart.GeneratorId) ∧
    BerylError.GeneratorIdOutOfBounds ≠ BerylError.PartOutOfBounds CrystalPart.GeneratorId := by
  decide

/-- Claim C8 as amended: construction validates the id against the 14-bit
width (accepting up to 0x3FFF, rejecting above), failing with the
dedicated `GeneratorIdOutOfBounds` kind; on success the counter is
initialized to `u16::MAX` and the first `try_generate` call returns an
identifier whose sequence field is 0 (for any clock samples, the
encode-time one being a valid 42-bit timestamp). -/
theorem c8_construction_amended (id epoch nowc t0 t1 t2 : Nat)
    (hid : id < 2^16) (ht2 : t2 < 2^42) :
    (id ≤ 0x3FFF →
      Generator.new id epoch nowc = Except.ok ⟨id, epoch, 0xFFFF, nowc⟩ ∧
      ∃ cr gen2, Generator.try_generate ⟨id, epoch, 0xFFFF, nowc⟩ t0 t1 t2 =
          (Except.ok cr, gen2) ∧ cr.counter = some 0) ∧
    (0x3FFF < id →
      Generator.new id epoch nowc = Except.error BerylError.GeneratorIdOutOfBounds) := by
  have hmod : id % 2^16 = id := Nat.mod_eq_of_lt hid
  constructor
  · intro hle
    constructor
    · unfold Generator.new
      rw [hmod, if_pos hle]
    · unfold Generator.try_generate
      rw [if_neg (by simp)]
      exact ⟨_, _, rfl, first_generate_counter id epoch nowc t1 t2 (by omega) ht2⟩
  · intro hgt
    unfold Generator.new
    rw [hmod, if_neg (by omega)]

/-- Witness for C8 as amended, at the boundary id 0x3FFF with clock
samples 5. -/
theorem c8_construction_amended_witness :
    (0x3FFF ≤ 0x3FFF →
      Generator.new 0x3FFF 0 5 = Except.ok ⟨0x3FFF, 0, 0xFFFF, 5⟩ ∧
      ∃ cr gen2, Generator.try_generate ⟨0x3FFF, 0, 0xFFFF, 5⟩ 5 5 5 =
          (Except.ok cr, gen2) ∧ cr.counter = some 0) ∧
    (0x3FFF < 0x3FFF →
      Generator.new 0x3FFF 0 5 = Except.error BerylError.GeneratorIdOutOfBounds) :=
  c8_construction_amended 0x3FFF 0 5 5 5 5 (by norm_num) (by norm_num)

/-- Claim C9: for every 64-bit pattern, wrapping the raw `u64` and
extracting each field never fails (the internal narrowing conversions
succeed, so no panic), and every extracted value lies within its
declared width: producer id below 2^14, sequence below 2^8, timestamp
below 2^42. -/
theorem c9_decode_total (n : Nat) (h : n < 2^64) :
    ∃ g c, (Crystal.ofU64 n).generator = some g ∧ g < 2^14 ∧
      (Crystal.ofU64 n).counter = some c ∧ c < 2^8 ∧
      (Crystal.ofU64 n).timestamp < 2^42 := by
  have hofu : Crystal.ofU64 n = ⟨n⟩ := by
    unfold Crystal.ofU64
    rw [Nat.mod_eq_of_lt h]
  have hsr : n >>> 50 = n / 2^50 := Nat.shiftRight_eq_div_pow n 50
  refine ⟨n >>> 50, (n >>> 42) % 2^8, ?_, ?_, ?_, ?_, ?_⟩
  · rw [hofu]
    unfold Crystal.generator Crystal.u16_of_u64
    rw [hsr, if_pos (by omega)]
  · rw [hsr]
    omega
  · rw [hofu]
    exact counter_eq n
  · exact Nat.mod_lt _ (by norm_num)
  · rw [hofu]
    unfold Crystal.timestamp
    rw [show (0x3FFFFFFFFFF : Nat) = 2^42 - 1 by norm_num, Nat.and_pow_two_sub_one_eq_mod]
    exact Nat.mod_lt _ (by norm_num)

/-- Witness for C9 at the all-ones bit pattern. -/
theorem c9_decode_total_witness :
    ∃ g c, (Crystal.ofU64 (2^64 - 1)).generator = some g ∧ g < 2^14 ∧
      (Crystal.ofU64 (2^64 - 1)).counter = some c ∧ c < 2^8 ∧
      (Crystal.ofU64 (2^64 - 1)).timestamp < 2^42 :=
  c9_decode_total (2^64 - 1) (by norm_num)

/-- Claim C10: whenever `try_generate` returns an error, that error is the
exhaustion error and the generator state is returned unchanged — `id`,
`epoch`, `count` and `last_timestamp` all hold their prior values. -/
theorem c10_error_preserves_state (g : Generator) (now0 now1 now2 : Nat) (e : BerylError)
    (h : (Generator.try_generate g now0 now1 now2).1 = Except.error e) :
    (Generator.try_generate g now0 now1 now2).2 = g ∧ e = BerylError.GeneratorExhausted := by
  unfold Generator.try_generate at h ⊢
  by_cases hc : g.count = 0x3FF ∧ g.last_timestamp = now0
  · rw [if_pos hc] at h ⊢
    exact ⟨rfl, (Except.error.inj h).symm⟩
  · rw [if_neg hc] at h
    simp at h

/-- Witness for C10 at an exhausted concrete state. -/
theorem c10_error_preserves_state_witness :
    (Generator.try_generate ⟨0, 0, 0x3FF, 5⟩ 5 6 6).2 = ⟨0, 0, 0x3FF, 5⟩ ∧
    BerylError.GeneratorExhausted = BerylError.GeneratorExhausted :=
  c10_error_preserves_state ⟨0, 0, 0x3FF, 5⟩ 5 6 6 BerylError.GeneratorExhausted (by decide)

end Beryl
